import Mathlib

/-!
Shallow embedding of the correlation engine of `src/services/api-server.ts`
(World Monitor).  Timestamps (`Date.getTime()`) are embedded as integers in
milliseconds; all derived real arithmetic is exact rational arithmetic, which
coincides with the source's IEEE arithmetic on every quantity the theorems
below evaluate.  JavaScript's stable `Array.prototype.sort` is embedded as
`List.insertionSort` with the comparator's total preorder: a stable sort's
output is uniquely determined by the preorder and the input order, so any
stable sort is a faithful model.  Display-only fields built from the numeric
data (`description`, `title`) and wall-clock creation timestamps (`new Date()`)
are omitted from the embedded records.  The haversine distance (transcendental
trigonometry in the source) is kept as an explicit function parameter `dist`;
every use in the source only compares it against thresholds.
-/

namespace WorldMonitor

/-- JavaScript `Math.round`: round half toward positive infinity. -/
def jsRound (q : ℚ) : ℤ := ⌊q + 1/2⌋

/-- Significance tier of a correlation result. -/
inductive Significance where
  | high | medium | low
deriving DecidableEq, Repr

/-- The `type` discriminator of a correlation result. -/
inductive CType where
  | temporal | spatial | thematic | cascade
deriving DecidableEq, Repr

/-- `CorrelationEvent` of the source: timestamp as integer milliseconds,
optional coordinates as `Option ℚ`. -/
structure CorrelationEvent where
  id : String
  title : String
  date : ℤ
  lat : Option ℚ := none
  lon : Option ℚ := none
  region : String
  keywords : List String
  source : String
  category : String
deriving DecidableEq, Repr

/-- `CorrelationResult` of the source (without the display-only
`description` and the wall-clock `timestamp`). -/
structure CorrelationResult where
  id : String
  type : CType
  score : ℤ
  events : List String
  significance : Significance
deriving DecidableEq, Repr

/-- JavaScript truthiness of an optional numeric coordinate: `undefined`
and `0` are both falsy, so a zero coordinate counts as absent. -/
def coordPresent : Option ℚ → Bool
  | none => false
  | some v => v != 0

/-- Time window for correlation (hours): `CORRELATION_WINDOW = 72`. -/
def CORRELATION_WINDOW : ℚ := 72

/-- `SPATIAL_THRESHOLD_KM = 500`. -/
def SPATIAL_THRESHOLD_KM : ℚ := 500

/-- `e1.keywords.filter(k => e2.keywords.includes(k))`. -/
def sharedKeywords (e1 e2 : CorrelationEvent) : List String :=
  e1.keywords.filter fun k => e2.keywords.contains k

/-- Absolute time difference in hours between two events. -/
def timeDiffH (e1 e2 : CorrelationEvent) : ℚ :=
  |((e1.date - e2.date : ℤ) : ℚ)| / (1000 * 60 * 60)

/-- Stable descending sort by score, modelling
`results.sort((a, b) => b.score - a.score)`. -/
def sortByScoreDesc (rs : List CorrelationResult) : List CorrelationResult :=
  rs.insertionSort fun a b => b.score ≤ a.score

/-- All ordered index pairs `i < j` of a list, as element pairs, in the
traversal order of the source's nested `for` loops. -/
def upperPairs : List α → List (α × α)
  | [] => []
  | e :: rest => (rest.map fun f => (e, f)) ++ upperPairs rest

/-- The record pushed by the temporal correlator for a qualifying pair
(the source's `results.push` literal). -/
def temporalResult (e1 e2 : CorrelationEvent) : CorrelationResult :=
  let score := min 100 (jsRound ((1 - timeDiffH e1 e2 / CORRELATION_WINDOW) * 100
    + ((sharedKeywords e1 e2).length : ℚ) * 10))
  { id := "temp_" ++ e1.id ++ "_" ++ e2.id
    type := .temporal
    score := score
    events := [e1.id, e2.id]
    significance :=
      if 70 < score then .high else if 50 < score then .medium else .low }

/-- Body of the temporal-correlator inner loop: the result (if any) emitted
for the pair `(e1, e2)`. -/
def tempPair? (e1 e2 : CorrelationEvent) : Option CorrelationResult :=
  if timeDiffH e1 e2 ≤ CORRELATION_WINDOW then
    if 2 ≤ (sharedKeywords e1 e2).length then
      some (temporalResult e1 e2)
    else none
  else none

/-- `findTemporalCorrelations` of the source. -/
def findTemporalCorrelations (events : List CorrelationEvent) :
    List CorrelationResult :=
  sortByScoreDesc ((upperPairs events).filterMap fun p => tempPair? p.1 p.2)

/-- Body of the spatial-correlator inner loop.  `dist` abstracts the
haversine distance; the guard is the source's truthiness test
`e1.lat && e1.lon && e2.lat && e2.lon`. -/
def spatPair? (dist : ℚ → ℚ → ℚ → ℚ → ℚ) (e1 e2 : CorrelationEvent) :
    Option CorrelationResult :=
  if coordPresent e1.lat && coordPresent e1.lon
      && coordPresent e2.lat && coordPresent e2.lon then
    let distance := dist (e1.lat.getD 0) (e1.lon.getD 0) (e2.lat.getD 0) (e2.lon.getD 0)
    if distance ≤ SPATIAL_THRESHOLD_KM then
      some { id := "spat_" ++ e1.id ++ "_" ++ e2.id
             type := .spatial
             score := min 100 (jsRound ((1 - distance / SPATIAL_THRESHOLD_KM) * 100))
             events := [e1.id, e2.id]
             significance :=
               if distance < 100 then .high
               else if distance < 250 then .medium else .low }
    else none
  else none

/-- `findSpatialCorrelations` of the source. -/
def findSpatialCorrelations (dist : ℚ → ℚ → ℚ → ℚ → ℚ)
    (events : List CorrelationEvent) : List CorrelationResult :=
  sortByScoreDesc ((upperPairs events).filterMap fun p => spatPair? dist p.1 p.2)

/-- Appending a value under a key in a JavaScript-object-as-record
(`if (!m[k]) m[k] = []; m[k].push(v)`): keys keep first-insertion order. -/
def recordPush {β : Type} (m : List (String × List β)) (k : String) (v : β) :
    List (String × List β) :=
  if m.any fun p => p.1 == k then
    m.map fun p => if p.1 = k then (p.1, p.2 ++ [v]) else p
  else m ++ [(k, [v])]

/-- The `keywordToEvents` record of `findThematicCorrelations`. -/
def keywordToEvents (events : List CorrelationEvent) :
    List (String × List String) :=
  events.foldl (fun m e => e.keywords.foldl (fun m k => recordPush m k e.id) m) []

/-- The result emitted for one keyword entry with `eventIds.length >= 3`. -/
def themeResult (k : String) (eventIds : List String) : CorrelationResult :=
  { id := "theme_" ++ k
    type := .thematic
    score := min 100 (jsRound ((eventIds.length : ℚ) * 15))
    events := eventIds
    significance :=
      if 5 ≤ eventIds.length then .high
      else if 3 ≤ eventIds.length then .medium else .low }

/-- `findThematicCorrelations` of the source. -/
def findThematicCorrelations (events : List CorrelationEvent) :
    List CorrelationResult :=
  sortByScoreDesc <| (keywordToEvents events).filterMap fun p =>
    if 3 ≤ p.2.length then some (themeResult p.1 p.2) else none

/-- The ids of the events referencing a keyword, in input order: the entry
the `keywordToEvents` record ends up holding for that keyword (for inputs
whose per-event keyword lists are duplicate-free). -/
def referencingIds (k : String) (events : List CorrelationEvent) : List String :=
  (events.filter fun e => e.keywords.contains k).map CorrelationEvent.id

/-- Signed gap in hours from `e1` to `e2` (the source's `hoursDiff`). -/
def hoursGap (e1 e2 : CorrelationEvent) : ℚ :=
  ((e2.date - e1.date : ℤ) : ℚ) / (1000 * 60 * 60)

/-- The record pushed by the cascade detector for a qualifying ordered pair
(the source's `results.push` literal). -/
def cascadeResult (e1 e2 : CorrelationEvent) : CorrelationResult :=
  { id := "cascade_" ++ e1.id ++ "_" ++ e2.id
    type := .cascade
    score := min 100 (jsRound ((1 - hoursGap e1 e2 / 48) * 100
      + (if e1.region = e2.region then 20 else ((sharedKeywords e1 e2).length : ℚ) * 10)))
    events := [e1.id, e2.id]
    significance := if hoursGap e1 e2 < 12 then .high else .medium }

/-- Body of the cascade-detector inner loop for the ordered pair `(e1, e2)`
taken from the date-sorted list. -/
def cascadePair? (e1 e2 : CorrelationEvent) : Option CorrelationResult :=
  if 6 < hoursGap e1 e2 ∧ hoursGap e1 e2 < 48 then
    if e1.region = e2.region ∨ 2 ≤ (sharedKeywords e1 e2).length then
      some (cascadeResult e1 e2)
    else none
  else none

/-- Stable ascending sort by date, modelling
`[...events].sort((a, b) => a.date.getTime() - b.date.getTime())`. -/
def sortByDateAsc (events : List CorrelationEvent) : List CorrelationEvent :=
  events.insertionSort fun a b => a.date ≤ b.date

/-- `detectCascades` of the source. -/
def detectCascades (events : List CorrelationEvent) : List CorrelationResult :=
  sortByScoreDesc
    ((upperPairs (sortByDateAsc events)).filterMap fun p => cascadePair? p.1 p.2)

/-- `TemporalPattern` of the source (timestamps as integer milliseconds). -/
structure TemporalPattern where
  pattern : String
  frequency : ℚ
  confidence : ℤ
  recentHits : List ℤ
deriving DecidableEq, Repr

/-- The group signature `${event.region}:${event.keywords.slice(0,2).join(',')}`. -/
def signatureOf (e : CorrelationEvent) : String :=
  e.region ++ ":" ++ String.intercalate "," (e.keywords.take 2)

/-- The `groups` record of `findTemporalPatterns`: signature → dates, built
over the date-sorted event list. -/
def patternGroups (events : List CorrelationEvent) : List (String × List ℤ) :=
  (sortByDateAsc events).foldl (fun m e => recordPush m (signatureOf e) e.date) []

/-- Analysis of one group's date list (`dates.length >= 3` branch of the
source).  In the source, when the mean interval is zero every interval of a
date-sorted group is zero and `|0 - 0| / 0` is `NaN`, and `NaN > 0.2` is
false; rational division by zero likewise yields `0 > 0.2 = false`, so the
two agree on date-sorted groups. -/
def analyzeGroup (dates : List ℤ) : Option TemporalPattern :=
  if 3 ≤ dates.length then
    let intervalsMs : List ℚ := (dates.zip dates.tail).map fun p => ((p.2 - p.1 : ℤ) : ℚ)
    let avgIntervalMs : ℚ := intervalsMs.sum / ((dates.length : ℚ) - 1)
    let avgIntervalHours : ℚ := avgIntervalMs / (1000 * 60 * 60)
    let consistent := intervalsMs.all fun ivMs =>
      !(decide (1/5 < |ivMs / (1000 * 60 * 60) - avgIntervalHours| / avgIntervalHours))
    if consistent ∧ avgIntervalHours < 168 then
      some { pattern := "recurring every " ++ toString (jsRound avgIntervalHours) ++ " hours"
             frequency := avgIntervalHours
             confidence := min 100 (jsRound ((dates.length : ℚ) * 20))
             recentHits := dates.drop (dates.length - 5) }
    else none
  else none

/-- `findTemporalPatterns` of the source. -/
def findTemporalPatterns (events : List CorrelationEvent) : List TemporalPattern :=
  ((patternGroups events).filterMap fun p => analyzeGroup p.2).insertionSort
    fun a b => b.confidence ≤ a.confidence

/-- `GeographicCluster` of the source (date range as integer milliseconds). -/
structure GeographicCluster where
  centerLat : ℚ
  centerLon : ℚ
  radiusKm : ℚ
  eventCount : ℕ
  categories : List String
  dateStart : ℤ
  dateEnd : ℤ
deriving DecidableEq, Repr

/-- One step of the inner scan of `findGeographicClusters`: absorb `other`
into the growing cluster seeded at `event` when it is within 100 km. -/
def absorbStep (dist : ℚ → ℚ → ℚ → ℚ → ℚ) (event : CorrelationEvent)
    (st : GeographicCluster × List String) (other : CorrelationEvent) :
    GeographicCluster × List String :=
  if event.id = other.id ∨ ¬ coordPresent other.lat ∨ ¬ coordPresent other.lon then st
  else
    let d := dist (event.lat.getD 0) (event.lon.getD 0)
              (other.lat.getD 0) (other.lon.getD 0)
    if d ≤ 100 then
      ({ centerLat := st.1.centerLat
         centerLon := st.1.centerLon
         radiusKm := max st.1.radiusKm d
         eventCount := st.1.eventCount + 1
         categories :=
           if st.1.categories.contains other.category then st.1.categories
           else st.1.categories ++ [other.category]
         dateStart := min st.1.dateStart other.date
         dateEnd := max st.1.dateEnd other.date }, st.2 ++ [other.id])
    else st

/-- The fresh cluster seeded at `event` (the source's `cluster` literal). -/
def initCluster (event : CorrelationEvent) : GeographicCluster :=
  { centerLat := event.lat.getD 0
    centerLon := event.lon.getD 0
    radiusKm := 50
    eventCount := 1
    categories := [event.category]
    dateStart := event.date
    dateEnd := event.date }

/-- One step of the outer loop of `findGeographicClusters`: the accumulator
is the emitted cluster list together with the `used` id set. -/
def clusterStep (dist : ℚ → ℚ → ℚ → ℚ → ℚ) (events : List CorrelationEvent)
    (acc : List GeographicCluster × List String) (event : CorrelationEvent) :
    List GeographicCluster × List String :=
  if ¬ coordPresent event.lat ∨ ¬ coordPresent event.lon
      ∨ acc.2.contains event.id then acc
  else
    let res := events.foldl (absorbStep dist event) (initCluster event, acc.2)
    (if 2 ≤ res.1.eventCount then acc.1 ++ [res.1] else acc.1, res.2)

/-- The distances of the events the seed's scan absorbs (distinct id, both
coordinates truthy, within 100 km), in scan order. -/
def absorbedDistances (dist : ℚ → ℚ → ℚ → ℚ → ℚ) (event : CorrelationEvent)
    (events : List CorrelationEvent) : List ℚ :=
  (events.filter fun o =>
    !(decide (event.id = o.id)) && coordPresent o.lat && coordPresent o.lon
      && decide (dist (event.lat.getD 0) (event.lon.getD 0)
            (o.lat.getD 0) (o.lon.getD 0) ≤ 100)).map fun o =>
    dist (event.lat.getD 0) (event.lon.getD 0) (o.lat.getD 0) (o.lon.getD 0)

/-- `findGeographicClusters` of the source. -/
def findGeographicClusters (dist : ℚ → ℚ → ℚ → ℚ → ℚ)
    (events : List CorrelationEvent) : List GeographicCluster :=
  (events.foldl (clusterStep dist events) ([], [])).1.insertionSort
    fun a b => b.eventCount ≤ a.eventCount

/-- The aggregate bundle returned by `runCorrelationEngine`. -/
structure CorrelationBundle where
  temporal : List CorrelationResult
  spatial : List CorrelationResult
  thematic : List CorrelationResult
  cascades : List CorrelationResult
  patterns : List TemporalPattern
  clusters : List GeographicCluster
deriving Repr

/-- `runCorrelationEngine` of the source (the six passes over one snapshot). -/
def runCorrelationEngine (dist : ℚ → ℚ → ℚ → ℚ → ℚ)
    (events : List CorrelationEvent) : CorrelationBundle :=
  { temporal := findTemporalCorrelations events
    spatial := findSpatialCorrelations dist events
    thematic := findThematicCorrelations events
    cascades := detectCascades events
    patterns := findTemporalPatterns events
    clusters := findGeographicClusters dist events }

/-- Severity tier of a projected threat signal (the source only ever
produces `'medium'` and `'low'` here). -/
inductive Severity where
  | medium | low
deriving DecidableEq, Repr

/-- A projected threat signal (without the display-only `title`,
`description` and the wall-clock `timestamp`). -/
structure ThreatSignal where
  type : String
  severity : Severity
  score : ℤ
  events : List String
deriving DecidableEq, Repr

/-- The string name of a correlation type. -/
def ctypeName : CType → String
  | .temporal => "temporal"
  | .spatial => "spatial"
  | .thematic => "thematic"
  | .cascade => "cascade"

/-- The alert record built from one correlation result. -/
def mkSignal (corr : CorrelationResult) : ThreatSignal :=
  { type := "correlation_" ++ ctypeName corr.type
    severity := if corr.significance = .high then .medium else .low
    score := corr.score
    events := corr.events }

/-- `correlationsToThreatSignals` of the source. -/
def correlationsToThreatSignals (results : CorrelationBundle) : List ThreatSignal :=
  let all :=
    results.temporal.filter (fun r => decide (r.significance = .high))
    ++ results.spatial.filter (fun r => decide (r.significance = .high))
    ++ results.cascades.filter (fun r => decide (r.significance = .high))
  (all.take 5).map mkSignal

/-! ### Generic list helpers -/

theorem mem_upperPairs_mem {α : Type} {l : List α} {p : α × α}
    (h : p ∈ upperPairs l) : p.1 ∈ l ∧ p.2 ∈ l := by
  induction l with
  | nil => simp [upperPairs] at h
  | cons e rest ih =>
    simp only [upperPairs, List.mem_append, List.mem_map] at h
    rcases h with ⟨b, hb, rfl⟩ | h
    · exact ⟨List.mem_cons_self _ _, List.mem_cons_of_mem _ hb⟩
    · exact ⟨List.mem_cons_of_mem _ (ih h).1, List.mem_cons_of_mem _ (ih h).2⟩

theorem upperPairs_map_nodup {α β : Type} {l : List α} {f : α → β}
    (h : (l.map f).Nodup) :
    ((upperPairs l).map fun p => (f p.1, f p.2)).Nodup := by
  induction l with
  | nil => simp [upperPairs]
  | cons e rest ih =>
    simp only [List.map_cons, List.nodup_cons] at h
    simp only [upperPairs, List.map_append, List.nodup_append]
    refine ⟨?_, ih h.2, ?_⟩
    · rw [List.map_map]
      have : ((fun p : α × α => (f p.1, f p.2)) ∘ fun b => (e, b))
          = (fun y => (f e, y)) ∘ f := rfl
      rw [this, ← List.map_map]
      exact h.2.map fun a b hab => congrArg Prod.snd hab
    · intro a ha hb
      simp only [List.map_map, List.mem_map, Function.comp] at ha hb
      obtain ⟨b, _, rfl⟩ := ha
      obtain ⟨p, hp, hpe⟩ := hb
      have h1 : f p.1 = f e := congrArg Prod.fst hpe
      exact h.1 (h1 ▸ List.mem_map_of_mem f (mem_upperPairs_mem hp).1)

theorem countP_eq_one_of_nodup_map {α β : Type} {l : List α} {q : α → Bool}
    {g : α → β} (hnd : (l.map g).Nodup) {x : α} (hx : x ∈ l) (hqx : q x = true)
    (hsame : ∀ y ∈ l, q y = true → g y = g x) : l.countP q = 1 := by
  rw [List.countP_eq_length_filter]
  have hxf : x ∈ l.filter q := List.mem_filter.2 ⟨hx, hqx⟩
  have hndf : ((l.filter q).map g).Nodup :=
    List.Nodup.sublist ((l.filter_sublist).map g) hnd
  match hl : l.filter q with
  | [] => rw [hl] at hxf; simp at hxf
  | [a] => simp
  | a :: b :: rest =>
    exfalso
    rw [hl] at hndf
    have ha : a ∈ l.filter q := by rw [hl]; simp
    have hb : b ∈ l.filter q := by rw [hl]; simp
    have hga : g a = g x :=
      hsame a (List.mem_of_mem_filter ha) (List.of_mem_filter ha)
    have hgb : g b = g x :=
      hsame b (List.mem_of_mem_filter hb) (List.of_mem_filter hb)
    simp only [List.map_cons, List.nodup_cons, List.mem_cons, List.mem_map] at hndf
    exact hndf.1 (Or.inl (hga.trans hgb.symm))

/-! ### Characterizations of the per-pair emission functions -/

theorem tempPair?_eq_some {e1 e2 : CorrelationEvent} {r : CorrelationResult} :
    tempPair? e1 e2 = some r ↔
      timeDiffH e1 e2 ≤ CORRELATION_WINDOW
      ∧ 2 ≤ (sharedKeywords e1 e2).length ∧ r = temporalResult e1 e2 := by
  unfold tempPair?
  split_ifs with h1 h2 <;> simp_all [eq_comm]

theorem cascadePair?_eq_some {e1 e2 : CorrelationEvent} {r : CorrelationResult} :
    cascadePair? e1 e2 = some r ↔
      (6 < hoursGap e1 e2 ∧ hoursGap e1 e2 < 48)
      ∧ (e1.region = e2.region ∨ 2 ≤ (sharedKeywords e1 e2).length)
      ∧ r = cascadeResult e1 e2 := by
  unfold cascadePair?
  split_ifs with h1 h2 <;> simp_all [eq_comm]

theorem mem_findTemporalCorrelations {es : List CorrelationEvent}
    {r : CorrelationResult} :
    r ∈ findTemporalCorrelations es ↔
      ∃ p, p ∈ upperPairs es ∧ tempPair? p.1 p.2 = some r := by
  unfold findTemporalCorrelations sortByScoreDesc
  rw [List.mem_insertionSort, List.mem_filterMap]

theorem mem_findSpatialCorrelations {dist : ℚ → ℚ → ℚ → ℚ → ℚ}
    {es : List CorrelationEvent} {r : CorrelationResult} :
    r ∈ findSpatialCorrelations dist es ↔
      ∃ p, p ∈ upperPairs es ∧ spatPair? dist p.1 p.2 = some r := by
  unfold findSpatialCorrelations sortByScoreDesc
  rw [List.mem_insertionSort, List.mem_filterMap]

theorem mem_detectCascades {es : List CorrelationEvent} {r : CorrelationResult} :
    r ∈ detectCascades es ↔
      ∃ p, p ∈ upperPairs (sortByDateAsc es) ∧ cascadePair? p.1 p.2 = some r := by
  unfold detectCascades sortByScoreDesc
  rw [List.mem_insertionSort, List.mem_filterMap]

theorem mem_findThematicCorrelations {es : List CorrelationEvent}
    {r : CorrelationResult} :
    r ∈ findThematicCorrelations es ↔
      ∃ p, p ∈ keywordToEvents es ∧ 3 ≤ p.2.length ∧ r = themeResult p.1 p.2 := by
  unfold findThematicCorrelations sortByScoreDesc
  rw [List.mem_insertionSort, List.mem_filterMap]
  constructor
  · rintro ⟨p, hp, hr⟩
    split_ifs at hr with h
    exact ⟨p, hp, h, (Option.some_inj.1 hr).symm⟩
  · rintro ⟨p, hp, h3, rfl⟩
    exact ⟨p, hp, by simp [h3]⟩

theorem mem_findTemporalPatterns {es : List CorrelationEvent}
    {p : TemporalPattern} :
    p ∈ findTemporalPatterns es ↔
      ∃ g, g ∈ patternGroups es ∧ analyzeGroup g.2 = some p := by
  unfold findTemporalPatterns
  rw [List.mem_insertionSort, List.mem_filterMap]

/-! ### Score bounds -/

theorem jsRound_nonneg {q : ℚ} (h : 0 ≤ q) : 0 ≤ jsRound q := by
  have h0 : (0 : ℤ) = ⌊(0 : ℚ)⌋ := by simp
  rw [jsRound, h0]
  exact Int.floor_le_floor (by linarith)

theorem clamp_bounds {z : ℤ} (h : 0 ≤ z) : 0 ≤ min 100 z ∧ min 100 z ≤ 100 :=
  ⟨le_min (by norm_num) h, min_le_left _ _⟩

theorem temporalResult_score_bounds {e1 e2 : CorrelationEvent}
    (h : timeDiffH e1 e2 ≤ CORRELATION_WINDOW) :
    0 ≤ (temporalResult e1 e2).score ∧ (temporalResult e1 e2).score ≤ 100 := by
  refine clamp_bounds (jsRound_nonneg ?_)
  rw [CORRELATION_WINDOW] at h
  have hk : (0 : ℚ) ≤ ((sharedKeywords e1 e2).length : ℚ) := Nat.cast_nonneg _
  have hd : timeDiffH e1 e2 / CORRELATION_WINDOW ≤ 1 := by
    rw [CORRELATION_WINDOW]
    exact (div_le_one (by norm_num)).2 h
  nlinarith [hd, hk]

theorem spatResult_score_bounds {dist : ℚ → ℚ → ℚ → ℚ → ℚ}
    {e1 e2 : CorrelationEvent} {r : CorrelationResult}
    (h : spatPair? dist e1 e2 = some r) : 0 ≤ r.score ∧ r.score ≤ 100 := by
  unfold spatPair? at h
  dsimp only at h
  split_ifs at h with h1 h2 h3 h4 <;>
  · obtain rfl := Option.some_inj.1 h.symm
    refine clamp_bounds (jsRound_nonneg ?_)
    simp only [SPATIAL_THRESHOLD_KM] at h2 ⊢
    nlinarith [(div_le_one (show (0:ℚ) < 500 by norm_num)).2 h2]

theorem themeResult_score_bounds {k : String} {ids : List String} :
    0 ≤ (themeResult k ids).score ∧ (themeResult k ids).score ≤ 100 := by
  refine clamp_bounds (jsRound_nonneg ?_)
  positivity

theorem cascadeResult_score_bounds {e1 e2 : CorrelationEvent}
    (h : hoursGap e1 e2 < 48) :
    0 ≤ (cascadeResult e1 e2).score ∧ (cascadeResult e1 e2).score ≤ 100 := by
  refine clamp_bounds (jsRound_nonneg ?_)
  have hd : hoursGap e1 e2 / 48 ≤ 1 := (div_le_one (by norm_num)).2 h.le
  have hk : (0 : ℚ) ≤ ((sharedKeywords e1 e2).length : ℚ) := Nat.cast_nonneg _
  split_ifs <;> nlinarith [hd, hk]

theorem analyzeGroup_confidence_bounds {dates : List ℤ} {p : TemporalPattern}
    (h : analyzeGroup dates = some p) : 0 ≤ p.confidence ∧ p.confidence ≤ 100 := by
  unfold analyzeGroup at h
  dsimp only at h
  split_ifs at h with h1 h2
  obtain rfl := Option.some_inj.1 h.symm
  exact clamp_bounds (jsRound_nonneg (by positivity))

/-- C7: for every input event list (and any distance function), every score
emitted by the temporal, spatial, thematic and cascade passes, and every
confidence emitted by the pattern pass, lies in the interval [0, 100]. -/
theorem c7_scores_in_range (dist : ℚ → ℚ → ℚ → ℚ → ℚ)
    (es : List CorrelationEvent) :
    (∀ r ∈ findTemporalCorrelations es, 0 ≤ r.score ∧ r.score ≤ 100)
    ∧ (∀ r ∈ findSpatialCorrelations dist es, 0 ≤ r.score ∧ r.score ≤ 100)
    ∧ (∀ r ∈ findThematicCorrelations es, 0 ≤ r.score ∧ r.score ≤ 100)
    ∧ (∀ r ∈ detectCascades es, 0 ≤ r.score ∧ r.score ≤ 100)
    ∧ (∀ p ∈ findTemporalPatterns es, 0 ≤ p.confidence ∧ p.confidence ≤ 100) := by
  refine ⟨?_, ?_, ?_, ?_, ?_⟩
  · intro r hr
    obtain ⟨p, _, hp⟩ := mem_findTemporalCorrelations.1 hr
    obtain ⟨hw, _, rfl⟩ := tempPair?_eq_some.1 hp
    exact temporalResult_score_bounds hw
  · intro r hr
    obtain ⟨p, _, hp⟩ := mem_findSpatialCorrelations.1 hr
    exact spatResult_score_bounds hp
  · intro r hr
    obtain ⟨p, _, _, rfl⟩ := mem_findThematicCorrelations.1 hr
    exact themeResult_score_bounds
  · intro r hr
    obtain ⟨p, _, hp⟩ := mem_detectCascades.1 hr
    obtain ⟨hw, _, rfl⟩ := cascadePair?_eq_some.1 hp
    exact cascadeResult_score_bounds hw.2
  · intro p hp
    obtain ⟨g, _, hg⟩ := mem_findTemporalPatterns.1 hp
    exact analyzeGroup_confidence_bounds hg

/-! ### Result types per pass -/

theorem type_of_mem_temporal {es : List CorrelationEvent} {r : CorrelationResult}
    (h : r ∈ findTemporalCorrelations es) : r.type = .temporal := by
  obtain ⟨p, _, hp⟩ := mem_findTemporalCorrelations.1 h
  obtain ⟨_, _, rfl⟩ := tempPair?_eq_some.1 hp
  rfl

theorem type_of_mem_spatial {dist : ℚ → ℚ → ℚ → ℚ → ℚ}
    {es : List CorrelationEvent} {r : CorrelationResult}
    (h : r ∈ findSpatialCorrelations dist es) : r.type = .spatial := by
  obtain ⟨p, _, hp⟩ := mem_findSpatialCorrelations.1 h
  unfold spatPair? at hp
  dsimp only at hp
  split_ifs at hp <;> exact (Option.some_inj.1 hp.symm) ▸ rfl

theorem type_of_mem_cascades {es : List CorrelationEvent} {r : CorrelationResult}
    (h : r ∈ detectCascades es) : r.type = .cascade := by
  obtain ⟨p, _, hp⟩ := mem_detectCascades.1 h
  obtain ⟨_, _, rfl⟩ := cascadePair?_eq_some.1 hp
  rfl

/-- C6: on every engine invocation the signal projector emits at most five
alert records; the records are the high-significance temporal, spatial and
cascade results in that fixed order truncated by position; every record comes
from a high-significance temporal, spatial or cascade result (never from a
thematic result, a pattern or a cluster, whose types never occur); and every
record's severity is medium. -/
theorem c6_signal_projector (dist : ℚ → ℚ → ℚ → ℚ → ℚ)
    (es : List CorrelationEvent) :
    (correlationsToThreatSignals (runCorrelationEngine dist es)).length ≤ 5
    ∧ correlationsToThreatSignals (runCorrelationEngine dist es)
        = ((((runCorrelationEngine dist es).temporal.filter
              fun r => decide (r.significance = .high))
            ++ ((runCorrelationEngine dist es).spatial.filter
              fun r => decide (r.significance = .high))
            ++ ((runCorrelationEngine dist es).cascades.filter
              fun r => decide (r.significance = .high))).take 5).map mkSignal
    ∧ ∀ s ∈ correlationsToThreatSignals (runCorrelationEngine dist es),
        s.severity = .medium
        ∧ ∃ r, r.significance = .high ∧ s = mkSignal r
            ∧ ((r ∈ (runCorrelationEngine dist es).temporal ∧ r.type = .temporal)
               ∨ (r ∈ (runCorrelationEngine dist es).spatial ∧ r.type = .spatial)
               ∨ (r ∈ (runCorrelationEngine dist es).cascades ∧ r.type = .cascade)) := by
  refine ⟨?_, rfl, ?_⟩
  · unfold correlationsToThreatSignals
    simp [List.length_take]
  · intro s hs
    unfold correlationsToThreatSignals at hs
    rw [List.mem_map] at hs
    obtain ⟨r, hr, rfl⟩ := hs
    have hr' := List.mem_of_mem_take hr
    simp only [List.mem_append, List.mem_filter, decide_eq_true_eq] at hr'
    have hhigh : r.significance = .high := by tauto
    refine ⟨by simp [mkSignal, hhigh], r, hhigh, rfl, ?_⟩
    rcases hr' with (⟨hm, _⟩ | ⟨hm, _⟩) | ⟨hm, _⟩
    · exact Or.inl ⟨hm, type_of_mem_temporal hm⟩
    · exact Or.inr (Or.inl ⟨hm, type_of_mem_spatial hm⟩)
    · exact Or.inr (Or.inr ⟨hm, type_of_mem_cascades hm⟩)

/-! ### Zero-coordinate events -/

/-- An event on the equator: latitude exactly 0, longitude present. -/
def equatorEvent : CorrelationEvent :=
  { id := "eq0"
    title := "Equator incident"
    date := 0
    lat := some 0
    lon := some 50
    region := "Atlantic"
    keywords := ["navy", "patrol"]
    source := "s1"
    category := "military" }

/-- An event about 111 km north of `equatorEvent` (haversine distance of
(0,50)-(1,50) is ≈ 111.2 km, well under the 500 km threshold). -/
def nearbyEvent : CorrelationEvent :=
  { id := "near1"
    title := "Nearby incident"
    date := 0
    lat := some 1
    lon := some 50
    region := "Atlantic"
    keywords := ["navy", "patrol"]
    source := "s2"
    category := "military" }

/-- C2: the claim (and the spec's input contract) requires an event with a
zero-valued coordinate to be treated as carrying coordinates, but the
source's truthiness guards `e1.lat && e1.lon && …` and
`!event.lat || !event.lon` skip such events: for any distance function at
all — in particular the haversine, under which this pair is ≈ 111 km ≤ 500 km
apart — the spatial correlator emits no result for the pair and the cluster
builder emits no cluster, so zero-coordinate events are excluded from both
passes. -/
theorem c2_zero_coordinate_excluded (dist : ℚ → ℚ → ℚ → ℚ → ℚ) :
    findSpatialCorrelations dist [equatorEvent, nearbyEvent] = []
    ∧ findGeographicClusters dist [equatorEvent, nearbyEvent] = [] :=
  ⟨rfl, rfl⟩

/-! ### The 24-hour pattern scenario -/

/-- An event of the pattern scenario: region "X", keywords ["a","b"], at the
given hour. -/
def patEvent (i : String) (h : ℤ) : CorrelationEvent :=
  { id := i
    title := i
    date := h * 3600000
    region := "X"
    keywords := ["a", "b"]
    source := "s"
    category := "c" }

theorem patternThree_eval :
    findTemporalPatterns [patEvent "e1" 0, patEvent "e2" 24, patEvent "e3" 48]
      = [{ pattern := "recurring every 24 hours", frequency := 24,
           confidence := 60, recentHits := [0, 86400000, 172800000] }] := by
  norm_num [findTemporalPatterns, patternGroups, sortByDateAsc, List.insertionSort,
    List.orderedInsert, patEvent, recordPush, signatureOf, analyzeGroup, jsRound,
    String.intercalate, String.intercalate.go, List.filterMap_cons, List.zip,
    List.zipWith, List.all_cons, Int.floor_eq_iff]
  rfl

theorem patternFour_eval :
    findTemporalPatterns [patEvent "e1" 0, patEvent "e2" 24, patEvent "e3" 48,
        patEvent "e4" 78]
      = [{ pattern := "recurring every 26 hours", frequency := 26,
           confidence := 80,
           recentHits := [0, 86400000, 172800000, 280800000] }] := by
  norm_num [findTemporalPatterns, patternGroups, sortByDateAsc, List.insertionSort,
    List.orderedInsert, patEvent, recordPush, signatureOf, analyzeGroup, jsRound,
    String.intercalate, String.intercalate.go, List.filterMap_cons, List.zip,
    List.zipWith, List.all_cons, Int.floor_eq_iff]
  rfl

/-- C1 counterexample: with the fourth event 30 hours after the third the
intervals are 24 h, 24 h, 30 h with mean 26 h; every interval is within 20 %
relative deviation of that mean (2/26 ≈ 7.7 %, 4/26 ≈ 15.4 %), so the
consistency check still passes and a pattern IS emitted — the claim says no
pattern is emitted for that group. -/
theorem c1_fourth_event_not_suppressed :
    findTemporalPatterns [patEvent "e1" 0, patEvent "e2" 24, patEvent "e3" 48,
        patEvent "e4" 78] ≠ []
    ∧ findTemporalPatterns [patEvent "e1" 0, patEvent "e2" 24, patEvent "e3" 48,
        patEvent "e4" 78]
      = [{ pattern := "recurring every 26 hours", frequency := 26,
           confidence := 80,
           recentHits := [0, 86400000, 172800000, 280800000] }] :=
  ⟨by simp [patternFour_eval], patternFour_eval⟩

/-- C1 (amended): three events sharing region "X" and keywords ["a","b"]
spaced 24 h apart yield exactly one pattern with frequency 24 and confidence
60; a fourth event of the same signature 30 hours after the third still
passes the consistency check (each interval is within 20 % of the 26 h mean),
so one pattern with frequency 26 and confidence 80 is emitted. -/
theorem c1_pattern_detection :
    findTemporalPatterns [patEvent "e1" 0, patEvent "e2" 24, patEvent "e3" 48]
      = [{ pattern := "recurring every 24 hours", frequency := 24,
           confidence := 60, recentHits := [0, 86400000, 172800000] }]
    ∧ findTemporalPatterns [patEvent "e1" 0, patEvent "e2" 24, patEvent "e3" 48,
        patEvent "e4" 78]
      = [{ pattern := "recurring every 26 hours", frequency := 26,
           confidence := 80,
           recentHits := [0, 86400000, 172800000, 280800000] }] :=
  ⟨patternThree_eval, patternFour_eval⟩

/-! ### Groups of identical timestamps (C10) -/

theorem drop_replicate {α : Type} (n k : ℕ) (a : α) :
    (List.replicate k a).drop n = List.replicate (k - n) a := by
  induction n generalizing k with
  | zero => simp
  | succ n ih =>
    cases k with
    | zero => simp
    | succ k => simp [List.replicate_succ, Nat.succ_sub_succ, ih k]

theorem insertionSort_eq_self {α : Type} (r : α → α → Prop) [DecidableRel r]
    (l : List α) (h : ∀ a ∈ l, ∀ b ∈ l, r a b) : List.insertionSort r l = l := by
  induction l with
  | nil => rfl
  | cons x xs ih =>
    have hxs : List.insertionSort r xs = xs :=
      ih fun a ha b hb => h a (List.mem_cons_of_mem _ ha) b (List.mem_cons_of_mem _ hb)
    rw [List.insertionSort, hxs]
    cases xs with
    | nil => rfl
    | cons y ys =>
      rw [List.orderedInsert,
        if_pos (h x (List.mem_cons_self _ _) y (by simp))]

theorem recordPush_single_same {β : Type} (s : String) (ds : List β) (v : β) :
    recordPush [(s, ds)] s v = [(s, ds ++ [v])] := by
  simp [recordPush]

theorem foldl_sig_const {es : List CorrelationEvent} {s : String}
    (hs : ∀ e ∈ es, signatureOf e = s) (ds : List ℤ) :
    es.foldl (fun m e => recordPush m (signatureOf e) e.date) [(s, ds)]
      = [(s, ds ++ es.map CorrelationEvent.date)] := by
  induction es generalizing ds with
  | nil => simp
  | cons e rest ih =>
    rw [List.foldl_cons, hs e (List.mem_cons_self _ _), recordPush_single_same,
      ih fun x hx => hs x (List.mem_cons_of_mem _ hx)]
    simp

theorem patternGroups_const {es : List CorrelationEvent} {s : String} {t : ℤ}
    (hne : es ≠ []) (hs : ∀ e ∈ es, signatureOf e = s)
    (ht : ∀ e ∈ es, e.date = t) :
    patternGroups es = [(s, List.replicate es.length t)] := by
  have hsort : sortByDateAsc es = es := by
    unfold sortByDateAsc
    exact insertionSort_eq_self _ es fun a ha b hb => by
      rw [ht a ha, ht b hb]
  have hmap : es.map CorrelationEvent.date = List.replicate es.length t := by
    rw [List.eq_replicate_iff]
    exact ⟨by simp, fun b hb => by
      obtain ⟨e, he, rfl⟩ := List.mem_map.1 hb; exact ht e he⟩
  unfold patternGroups
  rw [hsort]
  cases es with
  | nil => exact absurd rfl hne
  | cons e rest =>
    rw [List.foldl_cons, hs e (List.mem_cons_self _ _)]
    have h0 : recordPush ([] : List (String × List ℤ)) s e.date = [(s, [e.date])] := by
      simp [recordPush]
    rw [h0, foldl_sig_const fun x hx => hs x (List.mem_cons_of_mem _ hx)]
    simpa using hmap

theorem analyzeGroup_replicate {n : ℕ} (t : ℤ) (h3 : 3 ≤ n) :
    analyzeGroup (List.replicate n t)
      = some { pattern := "recurring every 0 hours", frequency := 0,
               confidence := min 100 (jsRound ((n : ℚ) * 20)),
               recentHits := List.replicate (min 5 n) t } := by
  unfold analyzeGroup
  rw [if_pos (by simpa using h3)]
  dsimp only
  rw [List.tail_replicate, show List.zip (List.replicate n t) (List.replicate (n - 1) t)
      = List.replicate (min n (n - 1)) (t, t) from List.zip_replicate,
    List.map_replicate, List.sum_replicate, drop_replicate]
  norm_num [jsRound]
  exact ⟨rfl, by omega⟩

/-- C10: when at least three events share the same region-plus-first-two-
keywords signature and carry identical timestamps, the pattern pass emits a
single pattern for that group with frequency 0 and confidence
clamp(round(count × 20)): the mean interval is 0, the 20 %% consistency check
passes vacuously (each deviation is divided by the zero mean), and 0 < 168
satisfies the weekly bound. -/
theorem c10_zero_interval_pattern (es : List CorrelationEvent) (s : String)
    (t : ℤ) (h3 : 3 ≤ es.length) (hs : ∀ e ∈ es, signatureOf e = s)
    (ht : ∀ e ∈ es, e.date = t) :
    findTemporalPatterns es
      = [{ pattern := "recurring every 0 hours", frequency := 0,
           confidence := min 100 (jsRound ((es.length : ℚ) * 20)),
           recentHits := List.replicate (min 5 es.length) t }] := by
  have hne : es ≠ [] := by rintro rfl; simp at h3
  unfold findTemporalPatterns
  rw [patternGroups_const hne hs ht]
  rw [List.filterMap_cons]
  dsimp only
  rw [analyzeGroup_replicate t h3]
  simp [List.insertionSort]

/-! ### Temporal correlator: per-pair exactness (C3) -/

theorem temporalResult_events (e1 e2 : CorrelationEvent) :
    (temporalResult e1 e2).events = [e1.id, e2.id] := rfl

/-- C3: for every unordered pair of distinct input events within the 72-hour
window sharing at least two keywords, the temporal pass emits exactly one
result for that pair, with the stated score formula and significance
thresholds; a pair outside the window or sharing fewer than two keywords
yields no result. -/
theorem c3_temporal_pairs (es : List CorrelationEvent)
    (hnd : (es.map CorrelationEvent.id).Nodup)
    (e1 e2 : CorrelationEvent) (hp : (e1, e2) ∈ upperPairs es) :
    (timeDiffH e1 e2 ≤ 72 ∧ 2 ≤ (sharedKeywords e1 e2).length →
        (findTemporalCorrelations es).count (temporalResult e1 e2) = 1
        ∧ ∀ r ∈ findTemporalCorrelations es,
            r.events = [e1.id, e2.id] → r = temporalResult e1 e2)
    ∧ (¬(timeDiffH e1 e2 ≤ 72 ∧ 2 ≤ (sharedKeywords e1 e2).length) →
        ∀ r ∈ findTemporalCorrelations es, r.events ≠ [e1.id, e2.id])
    ∧ (temporalResult e1 e2).score
        = min 100 (jsRound ((1 - timeDiffH e1 e2 / 72) * 100
            + ((sharedKeywords e1 e2).length : ℚ) * 10))
    ∧ ((temporalResult e1 e2).significance =
         if 70 < (temporalResult e1 e2).score then .high
         else if 50 < (temporalResult e1 e2).score then .medium else .low) := by
  have hids : ∀ {p : CorrelationEvent × CorrelationEvent},
      p ∈ upperPairs es → (temporalResult p.1 p.2).events = [e1.id, e2.id] →
      p.1 = e1 ∧ p.2 = e2 := by
    intro p hpmem hev
    rw [temporalResult_events, List.cons.injEq, List.cons.injEq] at hev
    exact ⟨List.inj_on_of_nodup_map hnd (mem_upperPairs_mem hpmem).1
        (mem_upperPairs_mem hp).1 hev.1,
      List.inj_on_of_nodup_map hnd (mem_upperPairs_mem hpmem).2
        (mem_upperPairs_mem hp).2 hev.2.1⟩
  refine ⟨fun hcond => ⟨?_, ?_⟩, fun hncond r hr hev => ?_, rfl, rfl⟩
  · unfold findTemporalCorrelations sortByScoreDesc
    rw [(List.perm_insertionSort _ _).count_eq, List.count_filterMap]
    refine countP_eq_one_of_nodup_map (upperPairs_map_nodup hnd) hp ?_ ?_
    · rw [beq_iff_eq]
      exact tempPair?_eq_some.2 ⟨hcond.1, hcond.2, rfl⟩
    · intro y hy hqy
      rw [beq_iff_eq] at hqy
      obtain ⟨_, _, heq⟩ := tempPair?_eq_some.1 hqy
      have hev : (temporalResult y.1 y.2).events = [e1.id, e2.id] := by
        rw [← heq, temporalResult_events]
      obtain ⟨h1, h2⟩ := hids hy hev
      rw [h1, h2]
  · intro r hr hev
    obtain ⟨p, hpmem, hsome⟩ := mem_findTemporalCorrelations.1 hr
    obtain ⟨_, _, rfl⟩ := tempPair?_eq_some.1 hsome
    obtain ⟨h1, h2⟩ := hids hpmem hev
    rw [h1, h2]
  · obtain ⟨p, hpmem, hsome⟩ := mem_findTemporalCorrelations.1 hr
    obtain ⟨hc1, hc2, rfl⟩ := tempPair?_eq_some.1 hsome
    obtain ⟨h1, h2⟩ := hids hpmem hev
    rw [h1, h2] at hc1 hc2
    exact hncond ⟨hc1, hc2⟩

/-! ### Cascade detector: per-pair exactness (C4) -/

theorem cascadeResult_events (e1 e2 : CorrelationEvent) :
    (cascadeResult e1 e2).events = [e1.id, e2.id] := rfl

theorem nodup_ids_sortByDateAsc {es : List CorrelationEvent}
    (h : (es.map CorrelationEvent.id).Nodup) :
    ((sortByDateAsc es).map CorrelationEvent.id).Nodup :=
  (((List.perm_insertionSort _ es).map CorrelationEvent.id).nodup_iff).2 h

/-- C4: over the date-sorted event list, an ordered pair is emitted by the
cascade detector exactly when its gap is strictly between 6 and 48 hours and
the events share a region or at least two keywords, with the stated score and
bonus and with significance high exactly below 12 hours; a gap of exactly 12
hours gets medium, and gaps of exactly 6 or 48 hours are excluded by the
strict bounds. -/
theorem c4_cascade_pairs (es : List CorrelationEvent)
    (hnd : (es.map CorrelationEvent.id).Nodup)
    (e1 e2 : CorrelationEvent) (hp : (e1, e2) ∈ upperPairs (sortByDateAsc es)) :
    ((6 < hoursGap e1 e2 ∧ hoursGap e1 e2 < 48)
       ∧ (e1.region = e2.region ∨ 2 ≤ (sharedKeywords e1 e2).length) →
        (detectCascades es).count (cascadeResult e1 e2) = 1
        ∧ ∀ r ∈ detectCascades es, r.events = [e1.id, e2.id] → r = cascadeResult e1 e2)
    ∧ (¬((6 < hoursGap e1 e2 ∧ hoursGap e1 e2 < 48)
          ∧ (e1.region = e2.region ∨ 2 ≤ (sharedKeywords e1 e2).length)) →
        ∀ r ∈ detectCascades es, r.events ≠ [e1.id, e2.id])
    ∧ (cascadeResult e1 e2).score
        = min 100 (jsRound ((1 - hoursGap e1 e2 / 48) * 100
            + (if e1.region = e2.region then 20
               else ((sharedKeywords e1 e2).length : ℚ) * 10)))
    ∧ ((cascadeResult e1 e2).significance
        = if hoursGap e1 e2 < 12 then .high else .medium)
    ∧ (hoursGap e1 e2 = 12 → (cascadeResult e1 e2).significance = .medium) := by
  have hnd' := nodup_ids_sortByDateAsc hnd
  have hids : ∀ {p : CorrelationEvent × CorrelationEvent},
      p ∈ upperPairs (sortByDateAsc es) →
      (cascadeResult p.1 p.2).events = [e1.id, e2.id] →
      p.1 = e1 ∧ p.2 = e2 := by
    intro p hpmem hev
    rw [cascadeResult_events, List.cons.injEq, List.cons.injEq] at hev
    exact ⟨List.inj_on_of_nodup_map hnd' (mem_upperPairs_mem hpmem).1
        (mem_upperPairs_mem hp).1 hev.1,
      List.inj_on_of_nodup_map hnd' (mem_upperPairs_mem hpmem).2
        (mem_upperPairs_mem hp).2 hev.2.1⟩
  refine ⟨fun hcond => ⟨?_, ?_⟩, fun hncond r hr hev => ?_, rfl, rfl, fun h12 => ?_⟩
  · unfold detectCascades sortByScoreDesc
    rw [(List.perm_insertionSort _ _).count_eq, List.count_filterMap]
    refine countP_eq_one_of_nodup_map (upperPairs_map_nodup hnd') hp ?_ ?_
    · rw [beq_iff_eq]
      exact cascadePair?_eq_some.2 ⟨hcond.1, hcond.2, rfl⟩
    · intro y hy hqy
      rw [beq_iff_eq] at hqy
      obtain ⟨_, _, heq⟩ := cascadePair?_eq_some.1 hqy
      have hev : (cascadeResult y.1 y.2).events = [e1.id, e2.id] := by
        rw [← heq, cascadeResult_events]
      obtain ⟨h1, h2⟩ := hids hy hev
      rw [h1, h2]
  · intro r hr hev
    obtain ⟨p, hpmem, hsome⟩ := mem_detectCascades.1 hr
    obtain ⟨_, _, rfl⟩ := cascadePair?_eq_some.1 hsome
    obtain ⟨h1, h2⟩ := hids hpmem hev
    rw [h1, h2]
  · obtain ⟨p, hpmem, hsome⟩ := mem_detectCascades.1 hr
    obtain ⟨hc1, hc2, rfl⟩ := cascadePair?_eq_some.1 hsome
    obtain ⟨h1, h2⟩ := hids hpmem hev
    rw [h1, h2] at hc1 hc2
    exact hncond ⟨hc1, hc2⟩
  · rw [show (cascadeResult e1 e2).significance
        = if hoursGap e1 e2 < 12 then Significance.high else .medium from rfl,
      h12]
    norm_num

/-! ### The keyword record (C5) -/

/-- First-match association lookup in a JavaScript-object-as-record. -/
def entry? {β : Type} : List (String × List β) → String → Option (List β)
  | [], _ => none
  | p :: rest, k => if p.1 = k then some p.2 else entry? rest k

theorem entry?_map_update {β : Type} (m : List (String × List β)) (k' k : String)
    (v : β) :
    entry? (m.map fun p => if p.1 = k then (p.1, p.2 ++ [v]) else p) k'
      = if k' = k then (entry? m k).map (· ++ [v]) else entry? m k' := by
  induction m with
  | nil => by_cases h : k' = k <;> simp [entry?, h]
  | cons a rest ih =>
    obtain ⟨a1, a2⟩ := a
    simp only [List.map_cons]
    by_cases hak : a1 = k
    · subst hak
      by_cases hk : k' = a1
      · subst hk
        simp [entry?]
      · simp [entry?, hk, Ne.symm hk, ih]
    · by_cases hka : a1 = k'
      · subst hka
        simp [entry?, hak]
      · simp [entry?, hak, hka, ih]

theorem entry?_append {β : Type} (m n : List (String × List β)) (k : String) :
    entry? (m ++ n) k
      = match entry? m k with
        | some l => some l
        | none => entry? n k := by
  induction m with
  | nil => simp [entry?]
  | cons a rest ih =>
    by_cases hka : a.1 = k <;> simp [entry?, hka, ih]

theorem entry?_isSome_of_any {β : Type} {m : List (String × List β)} {k : String}
    (h : (m.any fun p => p.1 == k) = true) : ∃ l, entry? m k = some l := by
  induction m with
  | nil => simp at h
  | cons a rest ih =>
    by_cases hka : a.1 = k
    · exact ⟨a.2, by simp [entry?, hka]⟩
    · simp only [List.any_cons, Bool.or_eq_true, beq_iff_eq] at h
      obtain ⟨l, hl⟩ := ih (h.resolve_left hka)
      exact ⟨l, by simp [entry?, hka, hl]⟩

theorem entry?_none_of_not_any {β : Type} {m : List (String × List β)} {k : String}
    (h : (m.any fun p => p.1 == k) = false) : entry? m k = none := by
  induction m with
  | nil => simp [entry?]
  | cons a rest ih =>
    simp only [List.any_cons, Bool.or_eq_false_iff, beq_eq_false_iff_ne] at h
    simp [entry?, h.1, ih h.2]

theorem entry?_recordPush {β : Type} (m : List (String × List β)) (k k' : String)
    (v : β) :
    entry? (recordPush m k v) k'
      = if k' = k then some ((entry? m k).getD [] ++ [v]) else entry? m k' := by
  by_cases hk : k' = k
  · subst hk
    rw [if_pos rfl]
    unfold recordPush
    split_ifs with hany
    · rw [entry?_map_update, if_pos rfl]
      obtain ⟨l, hl⟩ := entry?_isSome_of_any hany
      simp [hl]
    · rw [entry?_append,
        entry?_none_of_not_any (Bool.of_not_eq_true hany)]
      simp [entry?]
  · rw [if_neg hk]
    unfold recordPush
    split_ifs with hany
    · rw [entry?_map_update, if_neg hk]
    · rw [entry?_append]
      cases hval : entry? m k' with
      | some l => simp
      | none => simp [entry?, Ne.symm hk]

theorem entry?_foldl_push {β : Type} (v : β) (k : String) :
    ∀ (kws : List String) (m : List (String × List β)), kws.Nodup →
      entry? (kws.foldl (fun m k' => recordPush m k' v) m) k
        = if k ∈ kws then some ((entry? m k).getD [] ++ [v]) else entry? m k := by
  intro kws
  induction kws with
  | nil => intro m _; simp
  | cons k0 rest ih =>
    intro m hnd
    rw [List.foldl_cons, ih _ (List.nodup_cons.1 hnd).2]
    have h0 : k0 ∉ rest := (List.nodup_cons.1 hnd).1
    by_cases hk : k ∈ rest
    · have hkk0 : k ≠ k0 := fun h => h0 (h ▸ hk)
      rw [if_pos hk, if_pos (List.mem_cons.2 (Or.inr hk)),
        entry?_recordPush, if_neg hkk0]
    · by_cases hk0 : k = k0
      · subst hk0
        rw [if_neg hk, if_pos (List.mem_cons_self _ _),
          entry?_recordPush, if_pos rfl]
      · rw [if_neg hk, if_neg (by simp [hk, hk0]),
          entry?_recordPush, if_neg hk0]

theorem referencingIds_cons (k : String) (e : CorrelationEvent)
    (rest : List CorrelationEvent) :
    referencingIds k (e :: rest)
      = if k ∈ e.keywords then e.id :: referencingIds k rest
        else referencingIds k rest := by
  unfold referencingIds
  rw [List.filter_cons]
  by_cases hk : k ∈ e.keywords
  · rw [if_pos (by simpa [List.contains] using hk), if_pos hk, List.map_cons]
  · rw [if_neg (by simpa [List.contains] using hk), if_neg hk]

theorem entry?_keywordToEvents_fold (k : String) :
    ∀ (es : List CorrelationEvent) (m : List (String × List String)),
      (∀ e ∈ es, e.keywords.Nodup) →
      entry? (es.foldl
          (fun m e => e.keywords.foldl (fun m k' => recordPush m k' e.id) m) m) k
        = match entry? m k with
          | some l => some (l ++ referencingIds k es)
          | none => if referencingIds k es = [] then none
                    else some (referencingIds k es) := by
  intro es
  induction es with
  | nil =>
    intro m _
    cases hval : entry? m k <;> simp [referencingIds, hval]
  | cons e rest ih =>
    intro m hkw
    rw [List.foldl_cons,
      ih _ fun x hx => hkw x (List.mem_cons_of_mem _ hx)]
    have hm' := entry?_foldl_push e.id k e.keywords m
      (hkw e (List.mem_cons_self _ _))
    rw [referencingIds_cons]
    by_cases hke : k ∈ e.keywords
    · rw [hm', if_pos hke, if_pos hke]
      cases hval : entry? m k <;> simp [hval]
    · rw [hm', if_neg hke, if_neg hke]

theorem keys_nodup_recordPush {β : Type} {m : List (String × List β)}
    (k : String) (v : β) (h : (m.map Prod.fst).Nodup) :
    ((recordPush m k v).map Prod.fst).Nodup := by
  unfold recordPush
  split_ifs with hany
  · rw [List.map_map]
    have : (Prod.fst ∘ fun p : String × List β =>
        if p.1 = k then (p.1, p.2 ++ [v]) else p) = Prod.fst := by
      funext p
      by_cases hp : p.1 = k <;> simp [hp]
    rw [this]
    exact h
  · rw [List.map_append, List.nodup_append]
    refine ⟨h, by simp, ?_⟩
    intro a ha hb
    simp only [List.map_cons, List.map_nil, List.mem_singleton] at hb
    subst hb
    simp only [List.any_eq_true, not_exists, not_and, Bool.not_eq_true] at hany
    obtain ⟨p, hp, rfl⟩ := List.mem_map.1 ha
    have := hany p hp
    simp at this

theorem keys_nodup_foldl_push {β : Type} (v : β) :
    ∀ (kws : List String) (m : List (String × List β)),
      (m.map Prod.fst).Nodup →
      ((kws.foldl (fun m k' => recordPush m k' v) m).map Prod.fst).Nodup := by
  intro kws
  induction kws with
  | nil => intro m h; exact h
  | cons k0 rest ih =>
    intro m h
    exact ih _ (keys_nodup_recordPush k0 v h)

theorem keywordToEvents_keys_nodup (es : List CorrelationEvent) :
    ((keywordToEvents es).map Prod.fst).Nodup := by
  unfold keywordToEvents
  suffices h : ∀ (l : List CorrelationEvent) (m : List (String × List String)),
      (m.map Prod.fst).Nodup →
      ((l.foldl (fun m e => e.keywords.foldl
          (fun m k => recordPush m k e.id) m) m).map Prod.fst).Nodup by
    exact h es [] (by simp)
  intro l
  induction l with
  | nil => intro m h; exact h
  | cons e rest ih =>
    intro m h
    exact ih _ (keys_nodup_foldl_push e.id e.keywords m h)

theorem mem_of_entry?_eq_some {β : Type} :
    ∀ {m : List (String × List β)} {k : String} {l : List β},
      entry? m k = some l → (k, l) ∈ m := by
  intro m
  induction m with
  | nil => intro k l h; simp [entry?] at h
  | cons a rest ih =>
    intro k l h
    rw [entry?] at h
    split_ifs at h with ha
    · obtain rfl := Option.some_inj.1 h
      exact ha ▸ List.mem_cons_self _ _
    · exact List.mem_cons_of_mem _ (ih h)

theorem entry?_eq_some_of_mem {β : Type} :
    ∀ {m : List (String × List β)} {k : String} {l : List β},
      (m.map Prod.fst).Nodup → (k, l) ∈ m → entry? m k = some l := by
  intro m
  induction m with
  | nil => intro k l _ h; simp at h
  | cons a rest ih =>
    intro k l hnd hmem
    rw [List.map_cons, List.nodup_cons] at hnd
    rcases List.mem_cons.1 hmem with heq | hmem'
    · rw [← heq, entry?, if_pos rfl]
    · have hka : a.1 ≠ k := by
        intro hc
        exact hnd.1 (hc ▸ List.mem_map_of_mem Prod.fst hmem' : a.1 ∈ _)
      rw [entry?, if_neg hka]
      exact ih hnd.2 hmem'

theorem theme_id_inj {k k' : String}
    (h : ("theme_" ++ k : String) = "theme_" ++ k') : k = k' := by
  have hd := congrArg String.data h
  rw [String.data_append, String.data_append] at hd
  exact String.ext (List.append_cancel_left hd)

theorem entry?_keywordToEvents {es : List CorrelationEvent}
    (hkw : ∀ e ∈ es, e.keywords.Nodup) (k : String) :
    entry? (keywordToEvents es) k
      = if referencingIds k es = [] then none
        else some (referencingIds k es) := by
  unfold keywordToEvents
  rw [entry?_keywordToEvents_fold k es [] hkw]
  simp [entry?]

/-- C5: the thematic pass emits one result per keyword exactly when at least
three distinct events reference that keyword, the contributing events being
all referencing event ids in input order, with score clamp(round(count × 15))
and significance high exactly when the count is at least 5, medium otherwise;
a keyword referenced by fewer than three events contributes no result. -/
theorem c5_thematic_keywords (es : List CorrelationEvent)
    (_hid : (es.map CorrelationEvent.id).Nodup)
    (hkw : ∀ e ∈ es, e.keywords.Nodup) (k : String) :
    (3 ≤ (referencingIds k es).length →
        (findThematicCorrelations es).count
          (themeResult k (referencingIds k es)) = 1)
    ∧ ((referencingIds k es).length < 3 →
        ∀ r ∈ findThematicCorrelations es, r.id ≠ "theme_" ++ k)
    ∧ (themeResult k (referencingIds k es)).events = referencingIds k es
    ∧ (themeResult k (referencingIds k es)).score
        = min 100 (jsRound (((referencingIds k es).length : ℚ) * 15))
    ∧ (3 ≤ (referencingIds k es).length →
        (themeResult k (referencingIds k es)).significance
          = if 5 ≤ (referencingIds k es).length then .high else .medium) := by
  refine ⟨fun h3 => ?_, fun h3 r hr hrid => ?_, rfl, rfl, fun h3 => ?_⟩
  · unfold findThematicCorrelations sortByScoreDesc
    rw [(List.perm_insertionSort _ _).count_eq, List.count_filterMap]
    have hne : referencingIds k es ≠ [] := by
      intro hc
      rw [hc] at h3
      simp at h3
    have hx : (k, referencingIds k es) ∈ keywordToEvents es :=
      mem_of_entry?_eq_some (by rw [entry?_keywordToEvents hkw k, if_neg hne])
    refine countP_eq_one_of_nodup_map (g := Prod.fst)
      (keywordToEvents_keys_nodup es) hx ?_ ?_
    · rw [beq_iff_eq]
      show (if 3 ≤ (referencingIds k es).length then _ else none) = _
      rw [if_pos h3]
    · intro y hy hqy
      rw [beq_iff_eq] at hqy
      split_ifs at hqy with hylen
      have hidq : ("theme_" ++ y.1 : String) = "theme_" ++ k :=
        congrArg CorrelationResult.id (Option.some_inj.1 hqy)
      exact theme_id_inj hidq
  · obtain ⟨p, hp, hlen, rfl⟩ := mem_findThematicCorrelations.1 hr
    have hpk : p.1 = k := theme_id_inj hrid
    have hmem : (k, p.2) ∈ keywordToEvents es := by
      rw [← hpk]
      exact hp
    have := entry?_eq_some_of_mem (keywordToEvents_keys_nodup es) hmem
    rw [entry?_keywordToEvents hkw k] at this
    split_ifs at this with hne
    have hrefs := Option.some_inj.1 this
    rw [← hrefs] at hlen
    omega
  · by_cases h5 : 5 ≤ (referencingIds k es).length
    · simp [themeResult, h5]
    · simp [themeResult, h5, h3]

/-! ### Cluster-builder fold lemmas (C8, C9) -/

theorem mem_foldl_clusterStep (dist : ℚ → ℚ → ℚ → ℚ → ℚ)
    (evs : List CorrelationEvent) :
    ∀ (l : List CorrelationEvent) (acc : List GeographicCluster × List String)
      {c : GeographicCluster},
      c ∈ (l.foldl (clusterStep dist evs) acc).1 →
      c ∈ acc.1 ∨ ∃ e ∈ l, ∃ u : List String,
        c = (evs.foldl (absorbStep dist e) (initCluster e, u)).1
        ∧ 2 ≤ c.eventCount := by
  intro l
  induction l with
  | nil => intro acc c h; exact Or.inl h
  | cons e rest ih =>
    intro acc c h
    rw [List.foldl_cons] at h
    rcases ih (clusterStep dist evs acc e) h with hin | ⟨e', he', u, hc, hcnt⟩
    · unfold clusterStep at hin
      split_ifs at hin with hguard
      · exact Or.inl hin
      · dsimp only at hin
        split_ifs at hin with hcnt
        · rcases List.mem_append.1 hin with hin' | hin'
          · exact Or.inl hin'
          · obtain rfl := List.mem_singleton.1 hin'
            exact Or.inr ⟨e, List.mem_cons_self _ _, acc.2, rfl, hcnt⟩
        · exact Or.inl hin
    · exact Or.inr ⟨e', List.mem_cons_of_mem _ he', u, hc, hcnt⟩

theorem le_foldl_max (l : List ℚ) (a : ℚ) : a ≤ l.foldl max a := by
  induction l generalizing a with
  | nil => exact le_refl a
  | cons x rest ih =>
    rw [List.foldl_cons]
    exact le_trans (le_max_left a x) (ih (max a x))

theorem absorbStep_skip {dist : ℚ → ℚ → ℚ → ℚ → ℚ} {event : CorrelationEvent}
    {st : GeographicCluster × List String} {o : CorrelationEvent}
    (h : event.id = o.id ∨ ¬ coordPresent o.lat ∨ ¬ coordPresent o.lon) :
    absorbStep dist event st o = st := by
  unfold absorbStep
  rw [if_pos h]

theorem absorbStep_far {dist : ℚ → ℚ → ℚ → ℚ → ℚ} {event : CorrelationEvent}
    {st : GeographicCluster × List String} {o : CorrelationEvent}
    (h1 : ¬(event.id = o.id ∨ ¬ coordPresent o.lat ∨ ¬ coordPresent o.lon))
    (h4 : ¬ dist (event.lat.getD 0) (event.lon.getD 0)
        (o.lat.getD 0) (o.lon.getD 0) ≤ 100) :
    absorbStep dist event st o = st := by
  unfold absorbStep
  rw [if_neg h1]
  dsimp only
  rw [if_neg h4]

theorem absorbStep_absorb {dist : ℚ → ℚ → ℚ → ℚ → ℚ} {event : CorrelationEvent}
    {st : GeographicCluster × List String} {o : CorrelationEvent}
    (h1 : ¬(event.id = o.id ∨ ¬ coordPresent o.lat ∨ ¬ coordPresent o.lon))
    (h4 : dist (event.lat.getD 0) (event.lon.getD 0)
        (o.lat.getD 0) (o.lon.getD 0) ≤ 100) :
    absorbStep dist event st o =
      ({ centerLat := st.1.centerLat
         centerLon := st.1.centerLon
         radiusKm := max st.1.radiusKm (dist (event.lat.getD 0) (event.lon.getD 0)
           (o.lat.getD 0) (o.lon.getD 0))
         eventCount := st.1.eventCount + 1
         categories := if st.1.categories.contains o.category then st.1.categories
           else st.1.categories ++ [o.category]
         dateStart := min st.1.dateStart o.date
         dateEnd := max st.1.dateEnd o.date }, st.2 ++ [o.id]) := by
  unfold absorbStep
  rw [if_neg h1]
  dsimp only
  rw [if_pos h4]

theorem absorbedDistances_cons (dist : ℚ → ℚ → ℚ → ℚ → ℚ)
    (event o : CorrelationEvent) (rest : List CorrelationEvent) :
    absorbedDistances dist event (o :: rest)
      = (if (!(decide (event.id = o.id)) && coordPresent o.lat && coordPresent o.lon
            && decide (dist (event.lat.getD 0) (event.lon.getD 0)
                  (o.lat.getD 0) (o.lon.getD 0) ≤ 100)) = true
         then [dist (event.lat.getD 0) (event.lon.getD 0) (o.lat.getD 0) (o.lon.getD 0)]
         else []) ++ absorbedDistances dist event rest := by
  unfold absorbedDistances
  rw [List.filter_cons]
  split_ifs with h <;> simp

theorem absorb_fold_radius (dist : ℚ → ℚ → ℚ → ℚ → ℚ)
    (event : CorrelationEvent) :
    ∀ (l : List CorrelationEvent) (cl : GeographicCluster) (u : List String),
      ((l.foldl (absorbStep dist event) (cl, u)).1).radiusKm
        = (absorbedDistances dist event l).foldl max cl.radiusKm := by
  intro l
  induction l with
  | nil => intro cl u; rfl
  | cons o rest ih =>
    intro cl u
    rw [List.foldl_cons, absorbedDistances_cons]
    by_cases hguard : event.id = o.id ∨ ¬ coordPresent o.lat ∨ ¬ coordPresent o.lon
    · have hpred : (!(decide (event.id = o.id)) && coordPresent o.lat
          && coordPresent o.lon && decide (dist (event.lat.getD 0) (event.lon.getD 0)
            (o.lat.getD 0) (o.lon.getD 0) ≤ 100)) = false := by
        rcases hguard with h | h | h <;> simp [h]
      rw [if_neg (by rw [hpred]; exact Bool.false_ne_true), List.nil_append,
        absorbStep_skip hguard]
      exact ih cl u
    · have h1 : ¬ event.id = o.id := fun hc => hguard (Or.inl hc)
      have hB : coordPresent o.lat = true := by
        cases hv : coordPresent o.lat
        · exact absurd (Or.inr (Or.inl (by simp [hv]))) hguard
        · rfl
      have hC : coordPresent o.lon = true := by
        cases hv : coordPresent o.lon
        · exact absurd (Or.inr (Or.inr (by simp [hv]))) hguard
        · rfl
      by_cases h4 : dist (event.lat.getD 0) (event.lon.getD 0)
          (o.lat.getD 0) (o.lon.getD 0) ≤ 100
      · rw [if_pos (by simp [h1, hB, hC, h4]), absorbStep_absorb hguard h4,
          List.singleton_append, List.foldl_cons]
        exact ih _ _
      · rw [if_neg (by simp [h4]), List.nil_append, absorbStep_far hguard h4]
        exact ih cl u

/-- C9: every emitted cluster's radius is the maximum of the initial 50 km
and the absorbed seed-to-member distances (in scan order), and is therefore
at least 50 km even when every member lies strictly closer than 50 km to the
seed. -/
theorem c9_cluster_radius (dist : ℚ → ℚ → ℚ → ℚ → ℚ)
    (es : List CorrelationEvent) (c : GeographicCluster)
    (hc : c ∈ findGeographicClusters dist es) :
    (∃ seed ∈ es, c.radiusKm = (absorbedDistances dist seed es).foldl max 50)
    ∧ 50 ≤ c.radiusKm := by
  unfold findGeographicClusters at hc
  rw [List.mem_insertionSort] at hc
  rcases mem_foldl_clusterStep dist es es ([], []) hc with hin | ⟨e, he, u, hceq, _⟩
  · simp at hin
  · have hrad : c.radiusKm = (absorbedDistances dist e es).foldl max 50 := by
      rw [hceq, absorb_fold_radius]
      rfl
    exact ⟨⟨e, he, hrad⟩, hrad ▸ le_foldl_max _ _⟩

/-- An event of the four-event clustering scenario: nonzero coordinates,
fixed region/category, timestamp 0. -/
def c8Event (i : String) (la lo : ℚ) : CorrelationEvent :=
  { id := i
    title := i
    date := 0
    lat := some la
    lon := some lo
    region := "R"
    keywords := []
    source := "s"
    category := "c" }

/-- C8: a cluster is only emitted with at least two members; and in the
four-event scenario — all coordinates nonzero (hence truthy), the first three
events pairwise within 50 km and the fourth more than 500 km from each —
exactly one cluster is emitted, seeded at the first event with event count 3
and radius 50 km, and the fourth event is never absorbed: the used set ends
holding exactly the second and third ids. -/
theorem c8_cluster_scenario :
    (∀ (dist : ℚ → ℚ → ℚ → ℚ → ℚ) (es : List CorrelationEvent)
        (c : GeographicCluster), c ∈ findGeographicClusters dist es →
        2 ≤ c.eventCount)
    ∧ ∀ (dist : ℚ → ℚ → ℚ → ℚ → ℚ) (la1 lo1 la2 lo2 la3 lo3 la4 lo4 : ℚ),
        la1 ≠ 0 → lo1 ≠ 0 → la2 ≠ 0 → lo2 ≠ 0 → la3 ≠ 0 → lo3 ≠ 0 →
        la4 ≠ 0 → lo4 ≠ 0 →
        dist la1 lo1 la2 lo2 ≤ 50 → dist la1 lo1 la3 lo3 ≤ 50 →
        dist la2 lo2 la1 lo1 ≤ 50 → dist la2 lo2 la3 lo3 ≤ 50 →
        dist la3 lo3 la1 lo1 ≤ 50 → dist la3 lo3 la2 lo2 ≤ 50 →
        500 < dist la1 lo1 la4 lo4 → 500 < dist la2 lo2 la4 lo4 →
        500 < dist la3 lo3 la4 lo4 → 500 < dist la4 lo4 la1 lo1 →
        500 < dist la4 lo4 la2 lo2 → 500 < dist la4 lo4 la3 lo3 →
        findGeographicClusters dist
            [c8Event "a" la1 lo1, c8Event "b" la2 lo2,
             c8Event "c" la3 lo3, c8Event "d" la4 lo4]
          = [{ centerLat := la1, centerLon := lo1, radiusKm := 50,
               eventCount := 3, categories := ["c"],
               dateStart := 0, dateEnd := 0 }]
        ∧ ([c8Event "a" la1 lo1, c8Event "b" la2 lo2, c8Event "c" la3 lo3,
              c8Event "d" la4 lo4].foldl
            (clusterStep dist [c8Event "a" la1 lo1, c8Event "b" la2 lo2,
              c8Event "c" la3 lo3, c8Event "d" la4 lo4]) ([], [])).2
          = ["b", "c"] := by
  constructor
  · intro dist es c hc
    unfold findGeographicClusters at hc
    rw [List.mem_insertionSort] at hc
    rcases mem_foldl_clusterStep dist es es ([], []) hc with hin | ⟨_, _, _, _, hcnt⟩
    · simp at hin
    · exact hcnt
  · intro dist la1 lo1 la2 lo2 la3 lo3 la4 lo4 hla1 hlo1 hla2 hlo2 hla3 hlo3
      hla4 hlo4 h12 h13 h21 h23 h31 h32 h14 h24 h34 h41 h42 h43
    have h12' : dist la1 lo1 la2 lo2 ≤ 100 := by linarith
    have h13' : dist la1 lo1 la3 lo3 ≤ 100 := by linarith
    have h14' : ¬ dist la1 lo1 la4 lo4 ≤ 100 := by linarith
    have h41' : ¬ dist la4 lo4 la1 lo1 ≤ 100 := by linarith
    have h42' : ¬ dist la4 lo4 la2 lo2 ≤ 100 := by linarith
    have h43' : ¬ dist la4 lo4 la3 lo3 ≤ 100 := by linarith
    constructor <;>
    simp [findGeographicClusters, List.foldl_cons, List.foldl_nil,
      clusterStep, absorbStep, initCluster, c8Event, coordPresent, Option.getD,
      bne_iff_ne, ne_eq, hla1, hlo1, hla2, hlo2, hla3, hlo3, hla4, hlo4,
      h12', h13', h14', h41', h42', h43', List.contains_cons,
      max_eq_left h12, max_eq_left h13, List.insertionSort, List.orderedInsert]

/-! ### Concrete instances -/

/-- A distance function that is identically zero. -/
def distZero : ℚ → ℚ → ℚ → ℚ → ℚ := fun _ _ _ _ => 0

/-- A distance function for the two-event cluster instance: 0 at equal
longitudes, 10 km otherwise. -/
def distTen : ℚ → ℚ → ℚ → ℚ → ℚ := fun _ lo _ lob => if lo = lob then 0 else 10

/-- A distance function for the four-event cluster instance: 30 km at equal
latitudes, 600 km otherwise. -/
def dist50 : ℚ → ℚ → ℚ → ℚ → ℚ := fun la _ lb _ => if la = lb then 30 else 600

def wEvA : CorrelationEvent :=
  { id := "wa", title := "wa", date := 0, region := "R",
    keywords := ["k1", "k2"], source := "s", category := "c" }

def wEvB : CorrelationEvent :=
  { id := "wb", title := "wb", date := 0, region := "R",
    keywords := ["k1", "k2"], source := "s", category := "c" }

def wcB : CorrelationEvent :=
  { id := "wb", title := "wb", date := 43200000, region := "R",
    keywords := [], source := "s", category := "c" }

def wcA : CorrelationEvent :=
  { id := "wa", title := "wa", date := 0, region := "R",
    keywords := [], source := "s", category := "c" }

def wkE (i : String) : CorrelationEvent :=
  { id := i, title := i, date := 0, region := "R", keywords := ["k"],
    source := "s", category := "c" }

def wpE (i : String) : CorrelationEvent :=
  { id := i, title := i, date := 5, region := "X", keywords := ["a", "b"],
    source := "s", category := "c" }

def clEvA : CorrelationEvent :=
  { id := "a", title := "a", date := 0, lat := some 1, lon := some 1,
    region := "R", keywords := [], source := "s", category := "c" }

def clEvB : CorrelationEvent :=
  { id := "b", title := "b", date := 0, lat := some 1, lon := some 2,
    region := "R", keywords := [], source := "s", category := "c" }

def c9cluster : GeographicCluster :=
  { centerLat := 1, centerLon := 1, radiusKm := 50, eventCount := 2,
    categories := ["c"], dateStart := 0, dateEnd := 0 }

theorem thematicThree_eval :
    findThematicCorrelations [wkE "e1", wkE "e2", wkE "e3"]
      = [themeResult "k" ["e1", "e2", "e3"]] := by
  simp [findThematicCorrelations, keywordToEvents, recordPush, wkE,
    sortByScoreDesc, List.insertionSort, List.orderedInsert, List.filterMap_cons]

/-- Witness for C3: two events at the same time sharing two keywords. -/
theorem c3_temporal_pairs_witness :
    (([wEvA, wEvB].map CorrelationEvent.id).Nodup)
    ∧ ((wEvA, wEvB) ∈ upperPairs [wEvA, wEvB])
    ∧ (findTemporalCorrelations [wEvA, wEvB]).count (temporalResult wEvA wEvB) = 1 :=
  ⟨by decide, by decide,
    ((c3_temporal_pairs [wEvA, wEvB] (by decide) wEvA wEvB (by decide)).1
      ⟨by norm_num [timeDiffH, wEvA, wEvB], by decide⟩).1⟩

/-- Witness for C4: two same-region events exactly 12 hours apart. -/
theorem c4_cascade_pairs_witness :
    (([wcA, wcB].map CorrelationEvent.id).Nodup)
    ∧ ((wcA, wcB) ∈ upperPairs (sortByDateAsc [wcA, wcB]))
    ∧ (detectCascades [wcA, wcB]).count (cascadeResult wcA wcB) = 1
    ∧ (cascadeResult wcA wcB).significance = .medium :=
  ⟨by decide, by decide,
    ((c4_cascade_pairs [wcA, wcB] (by decide) wcA wcB (by decide)).1
      ⟨by norm_num [hoursGap, wcA, wcB], Or.inl rfl⟩).1,
    (c4_cascade_pairs [wcA, wcB] (by decide) wcA wcB (by decide)).2.2.2.2
      (by norm_num [hoursGap, wcA, wcB])⟩

/-- Witness for C5: the keyword "k" referenced by exactly three events. -/
theorem c5_thematic_keywords_witness :
    (([wkE "e1", wkE "e2", wkE "e3"].map CorrelationEvent.id).Nodup)
    ∧ (∀ e ∈ [wkE "e1", wkE "e2", wkE "e3"], e.keywords.Nodup)
    ∧ (findThematicCorrelations [wkE "e1", wkE "e2", wkE "e3"]).count
        (themeResult "k" (referencingIds "k" [wkE "e1", wkE "e2", wkE "e3"])) = 1 :=
  ⟨by decide, by decide,
    (c5_thematic_keywords [wkE "e1", wkE "e2", wkE "e3"] (by decide) (by decide)
      "k").1 (by decide)⟩

/-- Witness for C6 at a concrete invocation. -/
theorem c6_signal_projector_witness :
    (correlationsToThreatSignals (runCorrelationEngine distZero [])).length ≤ 5 :=
  (c6_signal_projector distZero []).1

/-- Witness for C7: a concrete emitted thematic result has its score within
bounds. -/
theorem c7_scores_in_range_witness :
    themeResult "k" ["e1", "e2", "e3"]
      ∈ findThematicCorrelations [wkE "e1", wkE "e2", wkE "e3"]
    ∧ 0 ≤ (themeResult "k" ["e1", "e2", "e3"]).score
    ∧ (themeResult "k" ["e1", "e2", "e3"]).score ≤ 100 := by
  have hm : themeResult "k" ["e1", "e2", "e3"]
      ∈ findThematicCorrelations [wkE "e1", wkE "e2", wkE "e3"] := by
    rw [thematicThree_eval]
    exact List.mem_singleton_self _
  exact ⟨hm, (c7_scores_in_range distZero [wkE "e1", wkE "e2", wkE "e3"]).2.2.1 _ hm⟩

/-- Witness for C8: a concrete four-event input with the stated geometry. -/
theorem c8_cluster_scenario_witness :
    dist50 1 1 1 2 ≤ 50 ∧ dist50 1 1 1 3 ≤ 50 ∧ 500 < dist50 1 1 2 5
    ∧ 500 < dist50 2 5 1 1
    ∧ findGeographicClusters dist50
        [c8Event "a" 1 1, c8Event "b" 1 2, c8Event "c" 1 3, c8Event "d" 2 5]
      = [{ centerLat := 1, centerLon := 1, radiusKm := 50, eventCount := 3,
           categories := ["c"], dateStart := 0, dateEnd := 0 }] :=
  ⟨by decide, by decide, by decide, by decide,
    (c8_cluster_scenario.2 dist50 1 1 1 2 1 3 2 5 (by decide) (by decide)
      (by decide) (by decide) (by decide) (by decide) (by decide) (by decide)
      (by decide) (by decide) (by decide) (by decide) (by decide) (by decide)
      (by decide) (by decide) (by decide) (by decide) (by decide)
      (by decide)).1⟩

/-- Witness for C9: a concrete emitted cluster whose only member lies 10 km
from the seed still has radius 50. -/
theorem c9_cluster_radius_witness :
    c9cluster ∈ findGeographicClusters distTen [clEvA, clEvB]
    ∧ ((∃ seed ∈ [clEvA, clEvB], c9cluster.radiusKm
          = (absorbedDistances distTen seed [clEvA, clEvB]).foldl max 50)
        ∧ 50 ≤ c9cluster.radiusKm) :=
  ⟨by decide, c9_cluster_radius distTen [clEvA, clEvB] c9cluster (by decide)⟩

/-- Witness for C10: three events with identical timestamps and signature. -/
theorem c10_zero_interval_pattern_witness :
    (3 ≤ ([wpE "e1", wpE "e2", wpE "e3"] : List CorrelationEvent).length)
    ∧ (∀ e ∈ [wpE "e1", wpE "e2", wpE "e3"], signatureOf e = "X:a,b")
    ∧ (∀ e ∈ [wpE "e1", wpE "e2", wpE "e3"], e.date = 5)
    ∧ findTemporalPatterns [wpE "e1", wpE "e2", wpE "e3"]
      = [{ pattern := "recurring every 0 hours", frequency := 0,
           confidence := min 100 (jsRound
             ((([wpE "e1", wpE "e2", wpE "e3"] : List CorrelationEvent).length : ℚ) * 20)),
           recentHits := List.replicate
             (min 5 ([wpE "e1", wpE "e2", wpE "e3"] : List CorrelationEvent).length) 5 }] :=
  ⟨by decide, by decide, by decide,
    c10_zero_interval_pattern [wpE "e1", wpE "e2", wpE "e3"] "X:a,b" 5
      (by decide) (by decide) (by decide)⟩

end WorldMonitor
